import Mathlib

/-!
Shallow embedding of the terrain height-field generator of
rafapignataro/nature-environment (src/index.js).

The source file contains three near-duplicate variants of one engine:
variant 1 (Terrain/Chunk), variant 2 (Terrain/Chunk with a different
classifier threshold), and variant 3 (MapGenerator, two-pass
normalization with an optional falloff mask).

JS numbers are modelled by the rationals.  A JS computation that
produces NaN (the 0/0 of inverseLerp when the observed minimum equals
the observed maximum, or an out-of-bounds falloff lookup) is modelled
by the none case of an Option-valued result; any other division that
occurs in the embedded code has a provably nonzero denominator, so the
rational semantics agrees with the JS float semantics up to rounding.
The external seeded noise function (noise.simplex2 and perlin.get) is
an opaque parameter f of the definitions: a fixed seed corresponds to a
fixed f.
-/

/-- Result of inverseLerp (src/index.js lines 27-33): the value is
clamped into the interval from mn to mx and rescaled; when mx = mn the
JS code divides 0 by 0 and yields NaN, modelled here as none. -/
def inverseLerp (mn mx v : ℚ) : Option ℚ :=
  if mx - mn = 0 then none else some ((max mn (min mx v) - mn) / (mx - mn))

/-- Running normalization state of a Terrain: minHeight and maxHeight
(src/index.js lines 107-109, 134-135). -/
structure TState where
  minHeight : ℚ
  maxHeight : ℚ
deriving DecidableEq

/-- Sentinel extremes set in the Terrain constructor (lines 134-135):
Number.MAX_SAFE_INTEGER and Number.MIN_SAFE_INTEGER. -/
def initState : TState :=
  ⟨9007199254740991, -9007199254740991⟩

/-- Min/max update performed by getHeight on every call
(lines 190-191 and 607-608 and 1005-1006). -/
def updateMM (s : TState) (a : ℚ) : TState :=
  ⟨if a < s.minHeight then a else s.minHeight,
   if s.maxHeight < a then a else s.maxHeight⟩

/-- Octave accumulation loop shared by all variants: at each octave
the noise is sampled at the base position times the current frequency,
remapped from the interval -1..1 to 0..1, scaled by the current
amplitude and accumulated; then amplitude is multiplied by the
persistance and frequency by the lacunarity (lines 178-188, 595-605,
992-1003). -/
def fbmAux (f : ℚ → ℚ → ℚ) (pers lac : ℚ) :
    ℕ → ℚ → ℚ → ℚ → ℚ → ℚ → ℚ
  | 0, _, _, _, _, acc => acc
  | n + 1, bx, bz, amp, freq, acc =>
      fbmAux f pers lac n bx bz (amp * pers) (freq * lac)
        (acc + (f (bx * freq) (bz * freq) + 1) / 2 * amp)

/-- Fractal value of a base coordinate: the octave loop started with
amplitude 1, frequency 1 and accumulator 0. -/
def fbm (f : ℚ → ℚ → ℚ) (pers lac : ℚ) (octaves : ℕ) (bx bz : ℚ) : ℚ :=
  fbmAux f pers lac octaves bx bz 1 1 0

/-- Configuration of the variant-1 Terrain (lines 4-14, 111-140). -/
structure TerrainConfig where
  size : ℕ
  chunkSize : ℚ
  resolution : ℚ
  octaves : ℕ
  persistance : ℚ
  lacunarity : ℚ
  heightMultiplier : ℚ
  islands : Bool
  wireframe : Bool

/-- Cells per chunk edge: Math.floor(chunkSize / resolution)
(lines 171, 269). -/
def gridSize (cfg : TerrainConfig) : ℕ :=
  ⌊cfg.chunkSize / cfg.resolution⌋.toNat

/-- Coordinate at which a cell of a chunk is sampled, before any
frequency scaling (lines 170-176): the cell index times gridSize plus
the chunk offset, divided by the terrain width. -/
def noisePos (cfg : TerrainConfig) (cell : ℕ) (off : ℚ) : ℚ :=
  ((cell : ℚ) * (gridSize cfg : ℚ) + off) / ((cfg.size : ℚ) * cfg.chunkSize)

/-- Terrain#getHeight (lines 165-196): computes the fractal value at
the cell's noise position, widens the running min/max with it, then
returns the value normalized by inverseLerp against the updated
min/max. -/
def getHeight (f : ℚ → ℚ → ℚ) (cfg : TerrainConfig) (x z : ℕ)
    (ox oz : ℚ) (s : TState) : TState × Option ℚ :=
  let nh := fbm f cfg.persistance cfg.lacunarity cfg.octaves
    (noisePos cfg x ox) (noisePos cfg z oz)
  let s1 := updateMM s nh
  (s1, inverseLerp s1.minHeight s1.maxHeight nh)

/-- State-threading map over a list, in list order: the embedding of a
JS loop that both mutates shared state and records a result per
iteration. -/
def stMap (g : σ → α → σ × β) : σ → List α → σ × List β
  | s, [] => (s, [])
  | s, a :: as =>
      let p := g s a
      let q := stMap g p.1 as
      (q.1, p.2 :: q.2)

/-- Chunk#createGrid (lines 268-286): rows z from 0 to gridSize, cells
x from 0 to gridSize, each filled by a getHeight call; the running
min/max state is threaded through in loop order. -/
def chunkGrid (f : ℚ → ℚ → ℚ) (cfg : TerrainConfig) (ox oz : ℚ)
    (s : TState) : TState × List (List (Option ℚ)) :=
  stMap
    (fun s z => stMap (fun s x => getHeight f cfg x z ox oz s) s
      (List.range (gridSize cfg)))
    s (List.range (gridSize cfg))

/-- Chunk creation order of Terrain#create (lines 142-158): the z loop
outside, the x loop inside. -/
def chunkOrder (cfg : TerrainConfig) : List (ℕ × ℕ) :=
  (List.range cfg.size).flatMap fun z =>
    (List.range cfg.size).map fun x => (z, x)

/-- Terrain#create: each chunk is built with offset x-part
x * chunkSize and z-part z * chunkSize (line 147), sharing the running
min/max state. -/
def terrainCreate (f : ℚ → ℚ → ℚ) (cfg : TerrainConfig) (s : TState) :
    TState × List (List (List (Option ℚ))) :=
  stMap
    (fun s zx =>
      chunkGrid f cfg ((zx.2 : ℚ) * cfg.chunkSize)
        ((zx.1 : ℚ) * cfg.chunkSize) s)
    s (chunkOrder cfg)

/-- The height grids of one full build started from the freshly
initialized sentinel state (a new Terrain followed by create). -/
def buildGrids (f : ℚ → ℚ → ℚ) (cfg : TerrainConfig) :
    List (List (List (Option ℚ))) :=
  (terrainCreate f cfg initState).2

/-- A live Terrain object: its current config fields, its running
min/max state and its chunk list (here, the chunks' height grids). -/
structure TerrainObj where
  cfg : TerrainConfig
  st : TState
  grids : List (List (List (Option ℚ)))

/-- Terrain constructor (lines 111-140): sentinel extremes, no chunks. -/
def mkTerrain (cfg : TerrainConfig) : TerrainObj :=
  ⟨cfg, initState, []⟩

/-- Terrain.create: builds the chunks from the object's current state
and appends them to the chunk list (lines 142-163, 216-218). -/
def createT (f : ℚ → ℚ → ℚ) (t : TerrainObj) : TerrainObj :=
  let r := terrainCreate f t.cfg t.st
  ⟨t.cfg, r.1, t.grids ++ r.2⟩

/-- Terrain.destroy (lines 198-202): empties the chunk list; the
min/max fields and the noise are untouched. -/
def destroyT (t : TerrainObj) : TerrainObj :=
  { t with grids := [] }

/-- Terrain.update (lines 204-214): overwrites the config fields; the
min/max fields and the noise are untouched. -/
def updateT (c : TerrainConfig) (t : TerrainObj) : TerrainObj :=
  { t with cfg := c }

/-- The rebuild performed by the animate loop on a config change
(lines 432-438): destroy, update, create on the same Terrain object. -/
def animStep (f : ℚ → ℚ → ℚ) (c : TerrainConfig) (t : TerrainObj) :
    TerrainObj :=
  createT f (updateT c (destroyT t))

/-- Falloff curve of createIslandShapeGrid and
MapGenerator#createFalloffMap (lines 42-47, 1028-1033): the inner
evaluate function with shape constants a = 3 and b = 2.2. -/
def falloffEvaluate (v : ℚ) : ℚ :=
  v ^ 3 / (v ^ 3 + (11 / 5 - 11 / 5 * v) ^ 3)

/-- Normalized coordinate of a cell index in a falloff grid of edge n
(lines 52-53): i divided by n, scaled to the interval -1..1. -/
def cellCoord (n i : ℕ) : ℚ :=
  (i : ℚ) / (n : ℚ) * 2 - 1

/-- Chebyshev magnitude of a cell's normalized coordinates
(line 55): the larger of the two absolute coordinates. -/
def chebVal (n i j : ℕ) : ℚ :=
  max |cellCoord n i| |cellCoord n j|

/-- createIslandShapeGrid (lines 39-62): the n by n grid of falloff
values, row index i and column index j. -/
def createIslandShapeGrid (n : ℕ) : List (List ℚ) :=
  (List.range n).map fun i =>
    (List.range n).map fun j => falloffEvaluate (chebVal n i j)

/-- Entry of the island shape grid at a row and column, with 0 for an
index outside the grid. -/
def islandGridVal (n i j : ℕ) : ℚ :=
  ((createIslandShapeGrid n).getD i []).getD j 0

/-- Material bands assigned by the mesh-building code. -/
inductive Band where
  | water
  | sand
  | grass
  | rock
  | snow
deriving DecidableEq

/-- Classifier of variant 1 (lines 318-324) and variant 3
(lines 1079-1090): thresholds 0.45, 0.5, 0.7, 0.9. -/
def classify (h : ℚ) : Band :=
  if h < 45 / 100 then Band.water
  else if h < 1 / 2 then Band.sand
  else if h < 7 / 10 then Band.grass
  else if h < 9 / 10 then Band.rock
  else Band.snow

/-- Classifier of variant 2 (lines 745-749): its water threshold is
0.35, the rest matches the other variants. -/
def classifyV2 (h : ℚ) : Band :=
  if h < 35 / 100 then Band.water
  else if h < 1 / 2 then Band.sand
  else if h < 7 / 10 then Band.grass
  else if h < 9 / 10 then Band.rock
  else Band.snow

/-- Configuration of the variant-3 MapGenerator (lines 870-880,
956-976), including the per-chunk offset. -/
structure MGConfig where
  width : ℚ
  height : ℚ
  cellSize : ℚ
  octaves : ℕ
  persistance : ℚ
  lacunarity : ℚ
  heightLimit : ℚ
  falloff : Bool
  wireframe : Bool
  offsetX : ℚ
  offsetY : ℚ

/-- Columns of a MapGenerator: Math.floor(width / cellSize)
(line 967). -/
def mgColumns (cfg : MGConfig) : ℕ :=
  ⌊cfg.width / cfg.cellSize⌋.toNat

/-- Rows of a MapGenerator: Math.floor(height / cellSize) (line 968). -/
def mgRows (cfg : MGConfig) : ℕ :=
  ⌊cfg.height / cfg.cellSize⌋.toNat

/-- Base x coordinate of a MapGenerator sample before frequency
scaling (line 993). -/
def mgBaseX (cfg : MGConfig) (x : ℕ) : ℚ :=
  (x : ℚ) * cfg.cellSize / cfg.width - cfg.offsetX + cfg.width / 2

/-- Base y coordinate of a MapGenerator sample before frequency
scaling (line 994). -/
def mgBaseY (cfg : MGConfig) (y : ℕ) : ℚ :=
  (y : ℚ) * cfg.cellSize / cfg.height - cfg.offsetY + cfg.height / 2

/-- Raw fractal value of a MapGenerator cell (lines 988-1003): the
octave loop of the shared engine on the cell's base coordinates. -/
def mgRaw (f : ℚ → ℚ → ℚ) (cfg : MGConfig) (y x : ℕ) : ℚ :=
  fbm f cfg.persistance cfg.lacunarity cfg.octaves
    (mgBaseX cfg x) (mgBaseY cfg y)

/-- MapGenerator#createFalloffMap (lines 1024-1048): the same loops
and evaluate function as createIslandShapeGrid, with edge length set
to the row count. -/
def createFalloffMap (cfg : MGConfig) : List (List ℚ) :=
  createIslandShapeGrid (mgRows cfg)

/-- Entry stored for one cell by the first pass of
MapGenerator#createMap (lines 1008-1010): the raw fractal value, minus
the falloff entry when falloff is on.  A lookup outside the falloff
grid is undefined in JS and makes the entry NaN, modelled as none. -/
def mgCellVal (f : ℚ → ℚ → ℚ) (cfg : MGConfig) (y x : ℕ) : Option ℚ :=
  let nh := mgRaw f cfg y x
  if cfg.falloff then
    ((createFalloffMap cfg).get? y).bind fun row =>
      (row.get? x).map fun m => nh - m
  else some nh

/-- First pass of MapGenerator#createMap (lines 984-1012): per cell,
the raw fractal value widens the running min/max (which start at the
sentinels of the MapGenerator constructor, lines 970-971), and the
cell's entry is stored. -/
def mapPass1 (f : ℚ → ℚ → ℚ) (cfg : MGConfig) :
    TState × List (List (Option ℚ)) :=
  stMap
    (fun s y =>
      stMap
        (fun s x => (updateMM s (mgRaw f cfg y x), mgCellVal f cfg y x))
        s (List.range (mgColumns cfg)))
    initState (List.range (mgRows cfg))

/-- Second pass of MapGenerator#createMap (lines 1014-1018): every
stored entry is normalized by inverseLerp against the final min/max of
the first pass. -/
def createMap (f : ℚ → ℚ → ℚ) (cfg : MGConfig) :
    List (List (Option ℚ)) :=
  let p := mapPass1 f cfg
  p.2.map fun row =>
    row.map fun e => e.bind (inverseLerp p.1.minHeight p.1.maxHeight)

/-- A generic sequence of getHeight calls against one running state:
each call is a cell index pair together with a chunk offset pair. -/
def runCalls (f : ℚ → ℚ → ℚ) (cfg : TerrainConfig) (s : TState)
    (calls : List (ℕ × ℕ × ℚ × ℚ)) : TState × List (Option ℚ) :=
  stMap (fun s c => getHeight f cfg c.1 c.2.1 c.2.2.1 c.2.2.2 s) s calls

/-- Predicate of a stored height lying in the unit interval; a NaN
entry (none) does not. -/
def heightInUnit : Option ℚ → Prop
  | none => False
  | some v => 0 ≤ v ∧ v ≤ 1

instance heightInUnit.instDecidable : DecidablePred heightInUnit
  | none => isFalse fun h => h
  | some v => inferInstanceAs (Decidable (0 ≤ v ∧ v ≤ 1))

/-- A stored height is either NaN or lies in the unit interval. -/
def heightOk (e : Option ℚ) : Prop :=
  e = none ∨ heightInUnit e

/-- Modelled from the spec: the documented valid ranges of the
configuration values (section 7: octave count at least 1, persistence
positive, resolution at least 1, grid extent at least 1).  No
validation code exists in the source; this predicate only states the
ranges the spec documents. -/
def specValidConfig (cfg : TerrainConfig) : Prop :=
  1 ≤ cfg.octaves ∧ 0 < cfg.persistance ∧ 1 ≤ cfg.resolution ∧
    1 ≤ cfg.size

instance specValidConfig.instDecidable :
    DecidablePred specValidConfig := fun c =>
  inferInstanceAs (Decidable (1 ≤ c.octaves ∧ 0 < c.persistance ∧
    1 ≤ c.resolution ∧ 1 ≤ c.size))

/-- Noise stand-in used for concrete evaluations: the raw sample is
the x coordinate, a deterministic coordinate-dependent function. -/
def noiseLinear : ℚ → ℚ → ℚ := fun x _ => x

/-- DEFAULT_CONFIG of variant 1 (lines 4-14). -/
@[simps]
def defaultConfig : TerrainConfig :=
  ⟨3, 512, 22, 6, 707 / 1000, 17 / 10, 250, false, false⟩

/-- Small concrete configuration: a single chunk of four cells. -/
@[simps]
def cfgA : TerrainConfig :=
  ⟨1, 2, 1, 1, 1 / 2, 2, 250, false, false⟩

/-- Concrete configuration violating the documented range of the
octave count (octaves = 0). -/
@[simps]
def cfgBadOct : TerrainConfig :=
  ⟨1, 2, 2, 0, 1 / 2, 2, 250, false, false⟩

/-- Single-cell concrete configuration with island mode on. -/
@[simps]
def cfgIslT : TerrainConfig :=
  ⟨1, 2, 2, 1, 1 / 2, 2, 250, true, false⟩

/-- Single-cell concrete configuration with island mode off. -/
@[simps]
def cfgIslF : TerrainConfig :=
  ⟨1, 2, 2, 1, 1 / 2, 2, 250, false, false⟩

/-- Small concrete MapGenerator configuration with falloff on: a two
by two grid. -/
@[simps]
def cfgM : MGConfig :=
  ⟨2, 2, 1, 1, 1 / 2, 2, 50, true, false, 0, 0⟩

/-! ## Helper lemmas -/

theorem stMap_length (g : σ → α → σ × β) (s : σ) (l : List α) :
    ((stMap g s l).2).length = l.length := by
  induction l generalizing s with
  | nil => rfl
  | cons a as ih => simp [stMap, ih]

theorem stMap_forall {P : β → Prop} {g : σ → α → σ × β}
    (hg : ∀ s a, P (g s a).2) (s : σ) (l : List α) :
    ∀ b ∈ (stMap g s l).2, P b := by
  induction l generalizing s with
  | nil => intro b hb; simp [stMap] at hb
  | cons a as ih =>
      intro b hb
      simp only [stMap, List.mem_cons] at hb
      rcases hb with hb | hb
      · exact hb ▸ hg s a
      · exact ih _ b hb

theorem stMap_snd_pure {g : σ → α → σ × β} {h : α → β}
    (hg : ∀ s a, (g s a).2 = h a) (s : σ) (l : List α) :
    (stMap g s l).2 = l.map h := by
  induction l generalizing s with
  | nil => rfl
  | cons a as ih => simp [stMap, hg, ih]

theorem updateMM_min_le (s : TState) (a : ℚ) :
    (updateMM s a).minHeight ≤ a := by
  unfold updateMM
  dsimp only
  split
  · exact le_refl a
  · exact le_of_not_lt (by assumption)

theorem updateMM_le_max (s : TState) (a : ℚ) :
    a ≤ (updateMM s a).maxHeight := by
  unfold updateMM
  dsimp only
  split
  · exact le_refl a
  · exact le_of_not_lt (by assumption)

theorem updateMM_min_mono (s : TState) (a : ℚ) :
    (updateMM s a).minHeight ≤ s.minHeight := by
  unfold updateMM
  dsimp only
  split
  · exact le_of_lt (by assumption)
  · exact le_refl _

theorem updateMM_max_mono (s : TState) (a : ℚ) :
    s.maxHeight ≤ (updateMM s a).maxHeight := by
  unfold updateMM
  dsimp only
  split
  · exact le_of_lt (by assumption)
  · exact le_refl _

theorem getHeight_fst (f : ℚ → ℚ → ℚ) (cfg : TerrainConfig)
    (x z : ℕ) (ox oz : ℚ) (s : TState) :
    (getHeight f cfg x z ox oz s).1 =
      updateMM s (fbm f cfg.persistance cfg.lacunarity cfg.octaves
        (noisePos cfg x ox) (noisePos cfg z oz)) := rfl

theorem inverseLerp_heightOk (mn mx v : ℚ) (h1 : mn ≤ v)
    (h2 : v ≤ mx) : heightOk (inverseLerp mn mx v) := by
  unfold inverseLerp heightOk
  split
  · exact Or.inl rfl
  · right
    have hne : mx - mn ≠ 0 := by assumption
    have hpos : 0 < mx - mn :=
      lt_of_le_of_ne (by linarith) (Ne.symm hne)
    have hcl : max mn (min mx v) = v := by
      rw [min_eq_right h2, max_eq_right h1]
    rw [hcl]
    exact ⟨div_nonneg (by linarith) (le_of_lt hpos),
      (div_le_one hpos).mpr (by linarith)⟩

theorem getHeight_heightOk (f : ℚ → ℚ → ℚ) (cfg : TerrainConfig)
    (x z : ℕ) (ox oz : ℚ) (s : TState) :
    heightOk (getHeight f cfg x z ox oz s).2 := by
  unfold getHeight
  exact inverseLerp_heightOk _ _ _ (updateMM_min_le s _)
    (updateMM_le_max s _)

theorem getD_map_range {β : Type} (F : ℕ → β) (d : β) (n i : ℕ)
    (h : i < n) : ((List.range n).map F).getD i d = F i := by
  simp [List.getD_eq_getElem?_getD, List.getElem?_map, List.getElem?_range, h]

theorem getD_map_range_of_le {β : Type} (F : ℕ → β) (d : β) (n i : ℕ)
    (h : n ≤ i) : ((List.range n).map F).getD i d = d := by
  rw [List.getD_eq_getElem?_getD, List.getElem?_eq_none (by simpa using h)]
  rfl

theorem get?_map_range {β : Type} (F : ℕ → β) (n i : ℕ) (h : i < n) :
    ((List.range n).map F).get? i = some (F i) := by
  simp [List.get?_eq_getElem?, List.getElem?_map, List.getElem?_range, h]

theorem falloffDenom_pos (a : ℚ) (h0 : 0 ≤ a) (h1 : a ≤ 1) :
    0 < a ^ 3 + (11 / 5 - 11 / 5 * a) ^ 3 := by
  rcases eq_or_lt_of_le h1 with he | hl
  · rw [he]; norm_num
  · have h2 : 0 < 11 / 5 - 11 / 5 * a := by linarith
    exact add_pos_of_nonneg_of_pos (pow_nonneg h0 3) (pow_pos h2 3)

theorem falloffEvaluate_nonneg (a : ℚ) (h0 : 0 ≤ a) (h1 : a ≤ 1) :
    0 ≤ falloffEvaluate a :=
  div_nonneg (pow_nonneg h0 3) (le_of_lt (falloffDenom_pos a h0 h1))

theorem falloffEvaluate_mono (a b : ℚ) (h0 : 0 ≤ a) (hab : a ≤ b)
    (h1 : b ≤ 1) : falloffEvaluate a ≤ falloffEvaluate b := by
  unfold falloffEvaluate
  rw [div_le_div_iff₀ (falloffDenom_pos a h0 (by linarith))
    (falloffDenom_pos b (by linarith) h1)]
  have k0 : 0 ≤ a * (1 - b) := mul_nonneg h0 (by linarith)
  have key : a * (1 - b) ≤ b * (1 - a) := by nlinarith
  have key3 : (a * (1 - b)) ^ 3 ≤ (b * (1 - a)) ^ 3 :=
    pow_le_pow_left₀ k0 key 3
  nlinarith [key3]

theorem cellCoord_abs_le (n i : ℕ) (h : i < n) : |cellCoord n i| ≤ 1 := by
  have hn : (0 : ℚ) < n := by exact_mod_cast Nat.pos_of_ne_zero (by omega)
  have hi0 : (0 : ℚ) ≤ (i : ℚ) / n :=
    div_nonneg (Nat.cast_nonneg i) (le_of_lt hn)
  have hi1 : (i : ℚ) / n ≤ 1 :=
    (div_le_one hn).mpr (by exact_mod_cast Nat.le_of_lt h)
  rw [abs_le]
  constructor <;> (unfold cellCoord; linarith)

theorem chebVal_nonneg (n i j : ℕ) : 0 ≤ chebVal n i j :=
  le_trans (abs_nonneg _) (le_max_left _ _)

theorem chebVal_le_one (n i j : ℕ) (hi : i < n) (hj : j < n) :
    chebVal n i j ≤ 1 :=
  max_le (cellCoord_abs_le n i hi) (cellCoord_abs_le n j hj)

theorem chebVal_comm (n i j : ℕ) : chebVal n i j = chebVal n j i :=
  max_comm _ _

theorem islandGridVal_eq (n i j : ℕ) (hi : i < n) (hj : j < n) :
    islandGridVal n i j = falloffEvaluate (chebVal n i j) := by
  unfold islandGridVal createIslandShapeGrid
  rw [getD_map_range _ _ _ _ hi, getD_map_range _ _ _ _ hj]

theorem islandGridVal_out_row (n i j : ℕ) (hi : n ≤ i) :
    islandGridVal n i j = 0 := by
  unfold islandGridVal createIslandShapeGrid
  rw [getD_map_range_of_le _ _ _ _ hi]
  rfl

theorem islandGridVal_out_col (n i j : ℕ) (hj : n ≤ j) :
    islandGridVal n i j = 0 := by
  unfold islandGridVal createIslandShapeGrid
  rcases Nat.lt_or_ge i n with hi | hi
  · rw [getD_map_range _ _ _ _ hi, getD_map_range_of_le _ _ _ _ hj]
  · rw [getD_map_range_of_le _ _ _ _ hi]; rfl

theorem mgCellVal_eq (f : ℚ → ℚ → ℚ) (cfg : MGConfig) (y x : ℕ)
    (hf : cfg.falloff = true) (hy : y < mgRows cfg)
    (hx : x < mgRows cfg) :
    mgCellVal f cfg y x =
      some (mgRaw f cfg y x -
        falloffEvaluate (chebVal (mgRows cfg) y x)) := by
  unfold mgCellVal createFalloffMap createIslandShapeGrid
  rw [hf, if_pos rfl, get?_map_range _ _ _ hy, Option.some_bind,
    get?_map_range _ _ _ hx]
  rfl

theorem mapPass1_snd (f : ℚ → ℚ → ℚ) (cfg : MGConfig) :
    (mapPass1 f cfg).2 =
      (List.range (mgRows cfg)).map fun y =>
        (List.range (mgColumns cfg)).map fun x => mgCellVal f cfg y x := by
  unfold mapPass1
  apply stMap_snd_pure
  intro s y
  apply stMap_snd_pure
  intro s x
  rfl

theorem createMap_entry (f : ℚ → ℚ → ℚ) (cfg : MGConfig) (y x : ℕ)
    (hy : y < mgRows cfg) (hx : x < mgColumns cfg) :
    ((createMap f cfg).getD y []).getD x none =
      (mgCellVal f cfg y x).bind
        (inverseLerp (mapPass1 f cfg).1.minHeight
          (mapPass1 f cfg).1.maxHeight) := by
  simp only [createMap]
  rw [mapPass1_snd, List.map_map, getD_map_range _ _ _ _ hy]
  simp only [Function.comp]
  rw [List.map_map, getD_map_range _ _ _ _ hx]
  simp [Function.comp]


/-! ## Evaluation lemmas for the concrete configurations -/

theorem rangeOne : List.range 1 = [0] := rfl

theorem rangeTwo : List.range 2 = [0, 1] := rfl

theorem gridSize_cfgA : gridSize cfgA = 2 := by
  norm_num [gridSize]
  rfl

theorem gridSize_cfgBadOct : gridSize cfgBadOct = 1 := by
  norm_num [gridSize]

theorem gridSize_cfgIslT : gridSize cfgIslT = 1 := by
  norm_num [gridSize]

theorem gridSize_cfgIslF : gridSize cfgIslF = 1 := by
  norm_num [gridSize]

theorem gridSize_defaultConfig : gridSize defaultConfig = 23 := by
  norm_num [gridSize]
  rfl

theorem mgRows_cfgM : mgRows cfgM = 2 := by
  norm_num [mgRows]
  rfl

theorem mgColumns_cfgM : mgColumns cfgM = 2 := by
  norm_num [mgColumns]
  rfl

theorem chunkOrder_cfgA : chunkOrder cfgA = [(0, 0)] := rfl

theorem chunkOrder_cfgBadOct : chunkOrder cfgBadOct = [(0, 0)] := rfl

theorem chunkOrder_cfgIslT : chunkOrder cfgIslT = [(0, 0)] := rfl

theorem chunkOrder_cfgIslF : chunkOrder cfgIslF = [(0, 0)] := rfl

theorem buildGrids_cfgA_eval :
    buildGrids noiseLinear cfgA = [[[none, some 1], [some 0, some 1]]] := by
  norm_num [buildGrids, terrainCreate, chunkOrder_cfgA, chunkGrid, stMap,
    getHeight, fbm, fbmAux, noisePos, gridSize_cfgA, updateMM,
    inverseLerp, initState, noiseLinear, rangeTwo]

theorem buildGrids_cfgBadOct_eval :
    buildGrids noiseLinear cfgBadOct = [[[none]]] := by
  norm_num [buildGrids, terrainCreate, chunkOrder_cfgBadOct, chunkGrid,
    stMap, getHeight, fbm, fbmAux, noisePos, gridSize_cfgBadOct,
    updateMM, inverseLerp, initState, noiseLinear, rangeOne]

theorem buildGrids_cfgIslT_eval :
    buildGrids noiseLinear cfgIslT = [[[none]]] := by
  norm_num [buildGrids, terrainCreate, chunkOrder_cfgIslT, chunkGrid,
    stMap, getHeight, fbm, fbmAux, noisePos, gridSize_cfgIslT,
    updateMM, inverseLerp, initState, noiseLinear, rangeOne]

theorem buildGrids_cfgIslF_eval :
    buildGrids noiseLinear cfgIslF = [[[none]]] := by
  norm_num [buildGrids, terrainCreate, chunkOrder_cfgIslF, chunkGrid,
    stMap, getHeight, fbm, fbmAux, noisePos, gridSize_cfgIslF,
    updateMM, inverseLerp, initState, noiseLinear, rangeOne]

/-! ## Claim theorems -/

/-- C1 (code evaluation at the failing input): on the very first
getHeight call of a build, both observed extremes are set to the same
accumulated value and the returned normalized height is NaN (none),
not 0 as the claim states. -/
theorem firstSample_returns_nan :
    (getHeight noiseLinear cfgA 0 0 0 0 initState).2 = none := by
  norm_num [getHeight, fbm, fbmAux, noisePos, gridSize_cfgA, updateMM,
    inverseLerp, initState, noiseLinear]

/-- C2 counterexample: a concrete build whose height grid has an entry
(the first sample, NaN) outside the unit interval, so not every stored
entry lies in the closed interval from 0 to 1. -/
theorem build_entry_not_in_unit :
    ¬ (∀ g ∈ buildGrids noiseLinear cfgA, ∀ row ∈ g, ∀ e ∈ row,
        heightInUnit e) := by
  intro h
  exact h [[none, some 1], [some 0, some 1]]
    (by rw [buildGrids_cfgA_eval]; exact List.mem_singleton.mpr rfl)
    [none, some 1] (by simp) none (by simp)

/-- C2 amended: every entry stored in a chunk's height grid is either
NaN (produced whenever the updated observed minimum equals the updated
observed maximum, in particular on the first sample of a build) or
lies in the closed unit interval. -/
theorem buildGrids_entries_none_or_unit (f : ℚ → ℚ → ℚ)
    (cfg : TerrainConfig) :
    ∀ g ∈ buildGrids f cfg, ∀ row ∈ g, ∀ e ∈ row, heightOk e := by
  unfold buildGrids terrainCreate
  apply stMap_forall
  intro s zx
  unfold chunkGrid
  apply stMap_forall
  intro s z
  apply stMap_forall
  intro s x
  exact getHeight_heightOk f cfg x z _ _ s

/-- C2 amended, witness at a concrete build. -/
theorem buildGrids_entries_none_or_unit_witness :
    heightOk (some (0 : ℚ)) :=
  buildGrids_entries_none_or_unit noiseLinear cfgA
    [[none, some 1], [some 0, some 1]]
    (by rw [buildGrids_cfgA_eval]; exact List.mem_singleton.mpr rfl)
    [some 0, some 1] (by simp) (some 0) (by simp)

/-- C3: the height grids of a full build depend on the noise source
only through its values; two builds with the same configuration whose
seeded noise functions agree at every coordinate (in particular two
builds with the same fixed seed, in the same tile order) produce
identical height grids. -/
theorem buildGrids_deterministic (f g : ℚ → ℚ → ℚ)
    (cfg : TerrainConfig) (h : ∀ x z, f x z = g x z) :
    buildGrids f cfg = buildGrids g cfg := by
  have hfg : f = g := funext fun x => funext fun z => h x z
  rw [hfg]

/-- C3 witness at a concrete noise function and configuration. -/
theorem buildGrids_deterministic_witness :
    buildGrids (fun a b => a + b) cfgA =
      buildGrids (fun a b => a + b) cfgA :=
  buildGrids_deterministic _ _ cfgA (fun _ _ => rfl)

/-- C4 (code evaluation at the failing input): with the default
configuration, the coordinate at which the last column of chunk (0,0)
is sampled differs from the coordinate at which the first column of
the horizontally adjacent chunk (0,1) is sampled, so adjacent chunks
do not sample a shared border coordinate. -/
theorem adjacent_chunk_columns_misaligned :
    noisePos defaultConfig (gridSize defaultConfig - 1)
        (0 * defaultConfig.chunkSize) ≠
      noisePos defaultConfig 0 (1 * defaultConfig.chunkSize) := by
  norm_num [noisePos, gridSize_defaultConfig]

/-- C5 counterexample: in the Terrain/Chunk variant the islands flag
does not change the stored grid at all, although the falloff value of
cell (0,0) is nonzero, so the stored height does not differ from the
non-island height at every cell with a nonzero mask value. -/
theorem chunk_islands_flag_ignored :
    buildGrids noiseLinear cfgIslT = buildGrids noiseLinear cfgIslF ∧
      islandGridVal (gridSize cfgIslT) 0 0 ≠ 0 := by
  constructor
  · rw [buildGrids_cfgIslT_eval, buildGrids_cfgIslF_eval]
  · rw [gridSize_cfgIslT,
      islandGridVal_eq 1 0 0 Nat.one_pos Nat.one_pos]
    norm_num [falloffEvaluate, chebVal, cellCoord]

/-- C5 amended: in the MapGenerator variant, the falloff value of a
cell is subtracted from the raw fractal height and the result is what
the normalization pass rescales: the stored entry equals inverseLerp of
the subtracted raw value against the observed extremes of the raw
(unsubtracted) values. -/
theorem createMap_falloff_subtracted_before_normalize
    (f : ℚ → ℚ → ℚ) (cfg : MGConfig) (y x : ℕ)
    (hf : cfg.falloff = true) (hy : y < mgRows cfg)
    (hx : x < mgColumns cfg) (hxr : x < mgRows cfg) :
    ((createMap f cfg).getD y []).getD x none =
      inverseLerp (mapPass1 f cfg).1.minHeight
        (mapPass1 f cfg).1.maxHeight
        (mgRaw f cfg y x -
          falloffEvaluate (chebVal (mgRows cfg) y x)) := by
  rw [createMap_entry f cfg y x hy hx, mgCellVal_eq f cfg y x hf hy hxr]
  rfl

/-- C5 amended, witness at a concrete falloff map. -/
theorem createMap_falloff_subtracted_before_normalize_witness :
    cfgM.falloff = true ∧ 0 < mgRows cfgM ∧ 0 < mgColumns cfgM ∧
      ((createMap noiseLinear cfgM).getD 0 []).getD 0 none =
        inverseLerp (mapPass1 noiseLinear cfgM).1.minHeight
          (mapPass1 noiseLinear cfgM).1.maxHeight
          (mgRaw noiseLinear cfgM 0 0 -
            falloffEvaluate (chebVal (mgRows cfgM) 0 0)) :=
  ⟨rfl, by rw [mgRows_cfgM]; norm_num, by rw [mgColumns_cfgM]; norm_num,
    createMap_falloff_subtracted_before_normalize noiseLinear cfgM 0 0
      rfl (by rw [mgRows_cfgM]; norm_num)
      (by rw [mgColumns_cfgM]; norm_num)
      (by rw [mgRows_cfgM]; norm_num)⟩

/-- C6 counterexample: in the island shape grid of edge 2, the cell
(1,1) is the image of the cell (0,0) under the reflections of the
square (and both lie at the same index distance from the grid's
center), yet their falloff values are 0 and 1: the grid is not
invariant under the eight-fold square symmetry, and equal center
distance does not give equal value. -/
theorem islandShapeGrid_not_mirror_symmetric :
    islandGridVal 2 1 1 ≠ islandGridVal 2 0 0 ∧
      islandGridVal 2 0 0 = 1 ∧ islandGridVal 2 1 1 = 0 := by
  rw [islandGridVal_eq 2 1 1 (by norm_num) (by norm_num),
    islandGridVal_eq 2 0 0 (by norm_num) (by norm_num)]
  norm_num [falloffEvaluate, chebVal, cellCoord]

/-- C6 amended: the island shape grid is symmetric under transposition
of its indices, and its values are monotone non-decreasing in the
Chebyshev magnitude of the cell's normalized coordinates (the center
of that coordinate frame does not coincide with the index center of
the grid, so the mirror symmetries and monotonicity in index distance
from the grid center fail). -/
theorem islandShapeGrid_transpose_mono (n i1 j1 i2 j2 : ℕ) :
    islandGridVal n i1 j1 = islandGridVal n j1 i1 ∧
      (i1 < n → j1 < n → i2 < n → j2 < n →
        chebVal n i1 j1 ≤ chebVal n i2 j2 →
        islandGridVal n i1 j1 ≤ islandGridVal n i2 j2) := by
  constructor
  · rcases Nat.lt_or_ge i1 n with hi | hi
    · rcases Nat.lt_or_ge j1 n with hj | hj
      · rw [islandGridVal_eq n i1 j1 hi hj,
          islandGridVal_eq n j1 i1 hj hi, chebVal_comm]
      · rw [islandGridVal_out_col n i1 j1 hj,
          islandGridVal_out_row n j1 i1 hj]
    · rcases Nat.lt_or_ge j1 n with hj | hj
      · rw [islandGridVal_out_row n i1 j1 hi,
          islandGridVal_out_col n j1 i1 hi]
      · rw [islandGridVal_out_row n i1 j1 hi,
          islandGridVal_out_row n j1 i1 hj]
  · intro hi1 hj1 hi2 hj2 hle
    rw [islandGridVal_eq n i1 j1 hi1 hj1,
      islandGridVal_eq n i2 j2 hi2 hj2]
    exact falloffEvaluate_mono _ _ (chebVal_nonneg n i1 j1) hle
      (chebVal_le_one n i2 j2 hi2 hj2)

/-- C6 amended, witness at the concrete grid of edge 2. -/
theorem islandShapeGrid_transpose_mono_witness :
    chebVal 2 1 1 ≤ chebVal 2 0 0 ∧
      islandGridVal 2 1 1 ≤ islandGridVal 2 0 0 := by
  have hc : chebVal 2 1 1 ≤ chebVal 2 0 0 := by
    norm_num [chebVal, cellCoord]
  exact ⟨hc, (islandShapeGrid_transpose_mono 2 1 1 0 0).2 (by norm_num)
    (by norm_num) (by norm_num) (by norm_num) hc⟩

/-- C7 counterexample: the variant-2 classifier maps the height 0.4,
which is below 0.45, to sand rather than water (its water threshold is
0.35), so the claimed fixed thresholds do not hold at every cited
classification site. -/
theorem classifyV2_water_band_differs :
    (2 / 5 : ℚ) < 45 / 100 ∧ classifyV2 (2 / 5) = Band.sand ∧
      classifyV2 (2 / 5) ≠ Band.water := by
  norm_num [classifyV2]
  decide

/-- C7 amended: the classifier of variants 1 and 3 is total with the
stated bands: every height below 0.45 is water, from 0.45 up to 0.5
sand, from 0.5 up to 0.7 grass, from 0.7 up to 0.9 rock, everything
from 0.9 on snow, and the boundary height 0.45 classifies as sand. -/
theorem classify_fixed_thresholds :
    (∀ h : ℚ, h < 45 / 100 → classify h = Band.water) ∧
      (∀ h : ℚ, 45 / 100 ≤ h → h < 1 / 2 → classify h = Band.sand) ∧
      (∀ h : ℚ, 1 / 2 ≤ h → h < 7 / 10 → classify h = Band.grass) ∧
      (∀ h : ℚ, 7 / 10 ≤ h → h < 9 / 10 → classify h = Band.rock) ∧
      (∀ h : ℚ, 9 / 10 ≤ h → classify h = Band.snow) ∧
      classify (45 / 100) = Band.sand := by
  refine ⟨?_, ?_, ?_, ?_, ?_, ?_⟩
  · intro h h1
    simp only [classify]
    rw [if_pos h1]
  · intro h h1 h2
    simp only [classify]
    rw [if_neg (not_lt.mpr h1), if_pos h2]
  · intro h h1 h2
    simp only [classify]
    rw [if_neg (not_lt.mpr (by linarith)), if_neg (not_lt.mpr h1),
      if_pos h2]
  · intro h h1 h2
    simp only [classify]
    rw [if_neg (not_lt.mpr (by linarith)),
      if_neg (not_lt.mpr (by linarith)), if_neg (not_lt.mpr h1),
      if_pos h2]
  · intro h h1
    simp only [classify]
    rw [if_neg (not_lt.mpr (by linarith)),
      if_neg (not_lt.mpr (by linarith)),
      if_neg (not_lt.mpr (by linarith)), if_neg (not_lt.mpr h1)]
  · norm_num [classify]

/-- C7 amended, witness at the height 0. -/
theorem classify_fixed_thresholds_witness :
    (0 : ℚ) < 45 / 100 ∧ classify 0 = Band.water :=
  ⟨by norm_num, classify_fixed_thresholds.1 0 (by norm_num)⟩

/-- C8: across any sequence of getHeight calls against one running
state, the observed minimum never increases and the observed maximum
never decreases: the normalization range only widens, so an early
height is normalized against a range no wider than any later one. -/
theorem runCalls_minmax_monotone (f : ℚ → ℚ → ℚ)
    (cfg : TerrainConfig) (s : TState)
    (calls : List (ℕ × ℕ × ℚ × ℚ)) :
    (runCalls f cfg s calls).1.minHeight ≤ s.minHeight ∧
      s.maxHeight ≤ (runCalls f cfg s calls).1.maxHeight := by
  induction calls generalizing s with
  | nil => exact ⟨le_refl _, le_refl _⟩
  | cons c cs ih =>
      have key := ih (getHeight f cfg c.1 c.2.1 c.2.2.1 c.2.2.2 s).1
      constructor
      · exact le_trans key.1
          (by rw [getHeight_fst]; exact updateMM_min_mono s _)
      · exact le_trans
          (by rw [getHeight_fst]; exact updateMM_max_mono s _) key.2

/-- C9 counterexample: a concrete rebuild through the animate loop's
destroy, update, create sequence produces different grids than a fresh
build with the same configuration and noise, because the previous
build's observed min/max survive into the new build. -/
theorem rebuild_carries_normalization_state :
    (animStep noiseLinear cfgA
        (createT noiseLinear (mkTerrain cfgA))).grids ≠
      (createT noiseLinear (mkTerrain cfgA)).grids := by
  norm_num [animStep, createT, destroyT, updateT, mkTerrain,
    terrainCreate, chunkOrder_cfgA, chunkGrid, stMap, getHeight, fbm,
    fbmAux, noisePos, gridSize_cfgA, updateMM, inverseLerp, initState,
    noiseLinear, rangeTwo]
  decide

/-- C9 amended: the running min/max state lives for the lifetime of
the Terrain object, not of one build: destroy and update leave it
unchanged, the animate rebuild threads the previous build's state into
the next create, and only constructing a new Terrain resets it to the
sentinel extremes. -/
theorem terrain_rebuild_lifecycle (f : ℚ → ℚ → ℚ)
    (c : TerrainConfig) (t : TerrainObj) :
    (animStep f c t).st = (terrainCreate f c t.st).1 ∧
      (animStep f c t).grids = (terrainCreate f c t.st).2 ∧
      (destroyT t).st = t.st ∧ (updateT c t).st = t.st ∧
      (mkTerrain c).st = initState := by
  exact ⟨rfl, rfl, rfl, rfl, rfl⟩

theorem chunkOrder_length (cfg : TerrainConfig) :
    (chunkOrder cfg).length = cfg.size * cfg.size := by
  unfold chunkOrder
  rw [List.length_flatMap]
  simp [Function.comp_def, List.map_const', List.sum_replicate,
    smul_eq_mul]

/-- C10 counterexample: the configuration with octave count 0 violates
the documented ranges, yet the build is not rejected: it runs the full
pipeline and produces a grid. -/
theorem invalid_config_not_rejected :
    ¬ specValidConfig cfgBadOct ∧
      buildGrids noiseLinear cfgBadOct ≠ [] := by
  constructor
  · norm_num [specValidConfig]
  · rw [buildGrids_cfgBadOct_eval]
    simp

/-- C10 amended: the source performs no configuration validation at
all: for every configuration (octave count 0, non-positive
persistence, any grid extent included, as long as its resolution and
chunk size keep the JS arithmetic finite) construction succeeds and
produces the full complement of chunk grids. -/
theorem build_proceeds_without_validation (f : ℚ → ℚ → ℚ)
    (cfg : TerrainConfig) (_hr : 1 ≤ cfg.resolution)
    (_hc : 0 ≤ cfg.chunkSize) :
    (buildGrids f cfg).length = cfg.size * cfg.size ∧
      ∀ g ∈ buildGrids f cfg, g.length = gridSize cfg := by
  constructor
  · unfold buildGrids terrainCreate
    rw [stMap_length, chunkOrder_length]
  · unfold buildGrids terrainCreate
    apply stMap_forall
    intro s zx
    unfold chunkGrid
    rw [stMap_length, List.length_range]

/-- C10 amended, witness at the invalid configuration with octave
count 0. -/
theorem build_proceeds_without_validation_witness :
    (1 : ℚ) ≤ cfgBadOct.resolution ∧ (0 : ℚ) ≤ cfgBadOct.chunkSize ∧
      (buildGrids noiseLinear cfgBadOct).length =
        cfgBadOct.size * cfgBadOct.size :=
  ⟨by norm_num, by norm_num,
    (build_proceeds_without_validation noiseLinear cfgBadOct
      (by norm_num) (by norm_num)).1⟩
